import Mathlib

/-!
Shallow embedding of the `distrlock` package (SQL-based distributed lease
locks) of the acronis-dbkit repository, together with the `dbkit` boundary
it consumes. Pure string/query generation is translated directly; the
database executor (`SQLExecutor`) is abstracted by its observable outcome,
exactly as the Go code treats it as an interface; the SQL `UPDATE`
statements used by acquire/release/extend are given table-level semantics
so that row-predicate properties can be stated.
-/

namespace Distrlock

/-- The SQL dialect identifier (`dbkit.Dialect` is a string enum; the five
named constants are the fixed enumerated set, `other` covers any remaining
string value such as `Dialect("unknown")` used in the repository's tests). -/
inductive Dialect where
  | sqlite
  | mysql
  | postgres
  | pgx
  | mssql
  | other (s : String)
deriving DecidableEq, Repr

/-- Go error values observable through the distrlock package API.
`lockAlreadyAcquired` / `lockAlreadyReleased` are the two sentinel errors;
`ctxCanceled` / `ctxDeadlineExceeded` are the context package's errors;
`driver` is an opaque transport/driver error (identified by an arbitrary
code); `beginTx` / `commitTx` are dbkit.DoInTx's wrappings of begin/commit
failures; `initLockFailed` is NewLock's wrapping of an init-statement
failure; the remaining constructors are the validation errors. -/
inductive Err where
  | lockAlreadyAcquired
  | lockAlreadyReleased
  | ctxCanceled
  | ctxDeadlineExceeded
  | driver (code : Nat)
  | beginTx (inner : Err)
  | commitTx (inner : Err)
  | initLockFailed (key : String) (inner : Err)
  | invalidKeyEmpty
  | invalidKeyTooLong
  | unsupportedDialect (d : Dialect)
deriving DecidableEq, Repr

/-- Status of a Go context at the moment an operation consults it. -/
inductive CtxStatus where
  | ok
  | canceled
  | deadlineExceeded
deriving DecidableEq, Repr

/-- Go `ctx.Err()`: nil for a live context, `context.Canceled` or
`context.DeadlineExceeded` otherwise. -/
def CtxStatus.err : CtxStatus → Option Err
  | .ok => none
  | .canceled => some .ctxCanceled
  | .deadlineExceeded => some .ctxDeadlineExceeded

/-- Outcome of `executor.ExecContext` followed by `result.RowsAffected()`:
either ExecContext itself returned a driver error, or it succeeded and
RowsAffected returned a driver error, or the affected-row count `n` was
reported. -/
inductive ExecResult where
  | execErr (code : Nat)
  | rowsAffectedErr (code : Nat)
  | affected (n : Nat)
deriving DecidableEq, Repr

/-- `execQueryAndCheckAffectedRow`: runs the statement; a driver error is
returned as-is; then (lib/pq workaround) a non-nil `ctx.Err()` is returned
even when the statement reported success; then a RowsAffected error is
returned; finally zero affected rows yield `errOnNoAffectedRows` and a
positive count yields nil. -/
def execQueryAndCheckAffectedRow (ctx : CtxStatus) (res : ExecResult)
    (errOnNoAffectedRows : Err) : Option Err :=
  match res with
  | .execErr code => some (.driver code)
  | .rowsAffectedErr code =>
    match ctx.err with
    | some ce => some ce
    | none => some (.driver code)
  | .affected n =>
    match ctx.err with
    | some ce => some ce
    | none => if n = 0 then some errOnNoAffectedRows else none

/-- Default name for the table that stores distributed locks. -/
def DefaultTableName : String := "distributed_locks"

def postgresCreateTableQuery (tableName : String) : String :=
  "CREATE TABLE IF NOT EXISTS \"" ++ tableName ++
    "\" (lock_key varchar(40) PRIMARY KEY, token uuid, expire_at timestamp);"

def postgresDropTableQuery (tableName : String) : String :=
  "DROP TABLE IF EXISTS \"" ++ tableName ++ "\";"

def postgresInitLockQuery (tableName : String) : String :=
  "INSERT INTO \"" ++ tableName ++ "\" (lock_key) VALUES ($1) ON CONFLICT (lock_key) DO NOTHING;"

def postgresAcquireLockQuery (tableName : String) : String :=
  "UPDATE \"" ++ tableName ++ "\" SET expire_at = NOW() + $1::interval, token = $2 " ++
    "WHERE lock_key = $3 AND ((expire_at IS NULL OR expire_at < NOW()) OR token = $4);"

def postgresReleaseLockQuery (tableName : String) : String :=
  "UPDATE \"" ++ tableName ++ "\" SET expire_at = NULL " ++
    "WHERE lock_key = $1 AND token = $2 AND expire_at >= NOW();"

def postgresExtendLockQuery (tableName : String) : String :=
  "UPDATE \"" ++ tableName ++ "\" SET expire_at = NOW() + $1::interval " ++
    "WHERE lock_key = $2 AND token = $3 AND expire_at >= NOW();"

def mySQLCreateTableQuery (tableName : String) : String :=
  "CREATE TABLE IF NOT EXISTS `" ++ tableName ++
    "` (lock_key VARCHAR(40) PRIMARY KEY, token VARCHAR(36), expire_at BIGINT);"

def mySQLDropTableQuery (tableName : String) : String :=
  "DROP TABLE IF EXISTS `" ++ tableName ++ "`;"

def mySQLInitLockQuery (tableName : String) : String :=
  "INSERT IGNORE `" ++ tableName ++ "` (lock_key) VALUES (?);"

def mySQLAcquireLockQuery (tableName : String) : String :=
  "UPDATE `" ++ tableName ++
    "` SET expire_at = UNIX_TIMESTAMP(DATE_ADD(CURTIME(4), INTERVAL ? MICROSECOND))*10000, token = ? " ++
    "WHERE lock_key = ? AND ((expire_at IS NULL OR expire_at < UNIX_TIMESTAMP(CURTIME(4))*10000) OR token = ?);"

def mySQLReleaseLockQuery (tableName : String) : String :=
  "UPDATE `" ++ tableName ++ "` SET expire_at = NULL " ++
    "WHERE lock_key = ? AND token = ? AND expire_at >= UNIX_TIMESTAMP(CURTIME(4))*10000;"

def mySQLExtendLockQuery (tableName : String) : String :=
  "UPDATE `" ++ tableName ++
    "` SET expire_at = UNIX_TIMESTAMP(DATE_ADD(CURTIME(4), INTERVAL ? MICROSECOND))*10000 " ++
    "WHERE lock_key = ? AND token = ? AND expire_at >= UNIX_TIMESTAMP(CURTIME(4))*10000;"

/-- `postgresMakeInterval`: durations are Go `time.Duration` nanosecond
counts (modelled as Nat); `Microseconds()` truncates by dividing by 1000. -/
def postgresMakeInterval (interval : Nat) : String :=
  toString (interval / 1000) ++ " microseconds"

def mySQLMakeInterval (interval : Nat) : String :=
  toString (interval / 1000)

/-- The dialect-specific query set owned by a lock manager. -/
structure DBQueries where
  createTable : String
  dropTable : String
  initLock : String
  acquireLock : String
  releaseLock : String
  extendLock : String
  intervalMaker : Nat → String

/-- `newDBQueries`: builds the query set for a dialect, or reports an
unsupported-dialect error (returning no queries at all). -/
def newDBQueries (dialect : Dialect) (tableName : String) : Except Err DBQueries :=
  match dialect with
  | .postgres | .pgx =>
    .ok
      { createTable := postgresCreateTableQuery tableName
        dropTable := postgresDropTableQuery tableName
        initLock := postgresInitLockQuery tableName
        acquireLock := postgresAcquireLockQuery tableName
        releaseLock := postgresReleaseLockQuery tableName
        extendLock := postgresExtendLockQuery tableName
        intervalMaker := postgresMakeInterval }
  | .mysql =>
    .ok
      { createTable := mySQLCreateTableQuery tableName
        dropTable := mySQLDropTableQuery tableName
        initLock := mySQLInitLockQuery tableName
        acquireLock := mySQLAcquireLockQuery tableName
        releaseLock := mySQLReleaseLockQuery tableName
        extendLock := mySQLExtendLockQuery tableName
        intervalMaker := mySQLMakeInterval }
  | d => .error (.unsupportedDialect d)

/-- The distributed lock manager: owns the dialect query set. -/
structure DBManager where
  queries : DBQueries

/-- Accumulated `DBManagerOption` values (`WithTableName`); the zero value
means no option was supplied. -/
structure DBManagerOptions where
  tableName : String := ""

/-- `NewDBManager`: applies options, falls back to `DefaultTableName`, and
builds the query set; an unsupported dialect yields the error and no
manager. -/
def NewDBManager (dialect : Dialect) (opts : DBManagerOptions) : Except Err DBManager :=
  let tableName := if opts.tableName = "" then DefaultTableName else opts.tableName
  (newDBQueries dialect tableName).map DBManager.mk

/-- `DBLock`: the in-process lease object (the `manager` back-pointer is
represented by using the query semantics directly in the operations). -/
structure DBLock where
  Key : String
  TTL : Nat := 0
  token : String := ""
deriving DecidableEq, Repr

/-- `DBManager.NewLock`: validates the key (non-empty, at most 40 bytes)
before any I/O, then executes the init statement through the executor.
`ctx` is the supplied context (passed to the driver but never consulted by
NewLock itself); `execOutcome` abstracts the executor's result for the init
statement (`none` = executed without driver error, `some code` = driver
error). The returned flag records whether the executor was invoked. -/
def NewLock (ctx : CtxStatus) (key : String) (execOutcome : Option Nat) :
    Except Err DBLock × Bool :=
  if key = "" then (.error .invalidKeyEmpty, false)
  else if key.utf8ByteSize > 40 then (.error .invalidKeyTooLong, false)
  else
    match execOutcome with
    | some code => (.error (.initLockFailed key (.driver code)), true)
    | none => (.ok { Key := key }, true)

/-- `DBLock.AcquireWithStaticToken`: executes the acquire statement through
`execQueryAndCheckAffectedRow` with `ErrLockAlreadyAcquired` as the
zero-rows error; only on success are the receiver's TTL and token fields
assigned. Returns the Go method's error result together with the lock value
after the call. -/
def AcquireWithStaticToken (l : DBLock) (ctx : CtxStatus) (res : ExecResult)
    (token : String) (lockTTL : Nat) : Option Err × DBLock :=
  match execQueryAndCheckAffectedRow ctx res .lockAlreadyAcquired with
  | some e => (some e, l)
  | none => (none, { l with TTL := lockTTL, token := token })

/-- `DBLock.Release`: executes the release statement through
`execQueryAndCheckAffectedRow` with `ErrLockAlreadyReleased` as the
zero-rows error; the method assigns no field of the receiver. -/
def Release (l : DBLock) (ctx : CtxStatus) (res : ExecResult) : Option Err × DBLock :=
  (execQueryAndCheckAffectedRow ctx res .lockAlreadyReleased, l)

/-- `DBLock.Extend`: executes the extend statement (interval taken from the
stored TTL) through `execQueryAndCheckAffectedRow` with
`ErrLockAlreadyReleased` as the zero-rows error; the method assigns no
field of the receiver. -/
def Extend (l : DBLock) (ctx : CtxStatus) (res : ExecResult) : Option Err × DBLock :=
  (execQueryAndCheckAffectedRow ctx res .lockAlreadyReleased, l)

/-- One persisted lock row: `token` and `expire_at` are nullable columns;
timestamps are absolute server-time instants (Nat). -/
structure LockRow where
  lock_key : String
  token : Option String
  expire_at : Option Nat
deriving DecidableEq, Repr

/-- WHERE clause of `postgresAcquireLockQuery` evaluated at server time
`now`: the row for `key` whose lease is absent or expired, or whose token
already equals the new token (SQL null semantics: a comparison with a NULL
`token` or `expire_at` is not satisfied). -/
def acquireWhere (now : Nat) (key tok : String) (r : LockRow) : Bool :=
  r.lock_key = key &&
    ((match r.expire_at with
      | none => true
      | some e => decide (e < now)) || r.token = some tok)

/-- SET clause of `postgresAcquireLockQuery`: `expire_at = NOW() + interval,
token = $2`. -/
def acquireSet (now ttl : Nat) (tok : String) (r : LockRow) : LockRow :=
  { r with expire_at := some (now + ttl), token := some tok }

/-- WHERE clause shared by the release and extend statements:
`lock_key = key AND token = tok AND expire_at >= NOW()`. -/
def releaseExtendWhere (now : Nat) (key tok : String) (r : LockRow) : Bool :=
  r.lock_key = key && r.token = some tok &&
    (match r.expire_at with
     | none => false
     | some e => decide (now ≤ e))

/-- Semantics of a SQL UPDATE: rewrite every row satisfying the WHERE
predicate with the SET clause; the affected-row count is the number of
matching rows. -/
def runUpdate (phi : LockRow → Bool) (setf : LockRow → LockRow)
    (tbl : List LockRow) : List LockRow × Nat :=
  (tbl.map fun r => if phi r then setf r else r, (tbl.filter phi).length)

/-- Table-level semantics of `postgresAcquireLockQuery`. -/
def runAcquireQuery (now ttl : Nat) (tok key : String) (tbl : List LockRow) :
    List LockRow × Nat :=
  runUpdate (acquireWhere now key tok) (acquireSet now ttl tok) tbl

/-- Table-level semantics of `postgresReleaseLockQuery`. -/
def runReleaseQuery (now : Nat) (key tok : String) (tbl : List LockRow) :
    List LockRow × Nat :=
  runUpdate (releaseExtendWhere now key tok) (fun r => { r with expire_at := none }) tbl

/-- Table-level semantics of `postgresExtendLockQuery`. -/
def runExtendQuery (now ttl : Nat) (key tok : String) (tbl : List LockRow) :
    List LockRow × Nat :=
  runUpdate (releaseExtendWhere now key tok)
    (fun r => { r with expire_at := some (now + ttl) }) tbl

/-- A row is held by `tok` at instant `now` when its token is `tok` and its
expiry is set and strictly in the future. -/
def heldBy (now : Nat) (tok : String) (r : LockRow) : Bool :=
  r.token = some tok &&
    (match r.expire_at with
     | none => false
     | some e => decide (now < e))

/-- `AcquireWithStaticToken` run against an actual table executing the
acquire statement at server time `now` with no driver failure: the UPDATE
runs, its affected-row count feeds the store-level check, and the resulting
error, lease object and table are returned. -/
def acquireOnTable (l : DBLock) (ctx : CtxStatus) (now : Nat) (tbl : List LockRow)
    (token : String) (lockTTL : Nat) : Option Err × DBLock × List LockRow :=
  let out := runAcquireQuery now lockTTL token l.Key tbl
  let step := AcquireWithStaticToken l ctx (.affected out.2) token lockTTL
  (step.1, step.2, out.1)

/-- Modelled from the spec: `dbkit.DoInTx` (absent from the sources; only
its tests and callers are present) is the external transactional wrapper
that begins a transaction, runs the unit of work, and commits or rolls
back. Beginning fails when the supplied context is already dead (the begin
error is wrapped); otherwise the unit of work's own error is returned
unchanged, and on its success a commit failure is wrapped and returned. -/
def doInTx (ctx : CtxStatus) (fnErr : Option Err) (commitErrCode : Option Nat) : Option Err :=
  match ctx.err with
  | some ce => some (.beginTx ce)
  | none =>
    match fnErr with
    | some e => some e
    | none => commitErrCode.map fun code => .commitTx (.driver code)

/-- Effective `DoExclusively` configuration after applying defaults:
TTL 1 minute, extend interval TTL/2, release timeout 5 seconds (durations
in nanoseconds). -/
structure DoOptions where
  lockTTL : Nat := 0
  periodicExtendInterval : Nat := 0
  releaseTimeout : Nat := 0
deriving DecidableEq, Repr

/-- The zero-value defaulting at the top of `DoExclusively`. -/
def effectiveDoOptions (o : DoOptions) : DoOptions :=
  let ttl := if o.lockTTL = 0 then 60 * 1000000000 else o.lockTTL
  { lockTTL := ttl
    periodicExtendInterval :=
      if o.periodicExtendInterval = 0 then ttl / 2 else o.periodicExtendInterval
    releaseTimeout := if o.releaseTimeout = 0 then 5 * 1000000000 else o.releaseTimeout }

/-- Observable outcome of one `DBLock.DoExclusively` call: the returned
error, whether the renewal goroutine was spawned, whether the deferred
release was attempted, and the error (if any) the release defer reported to
the logger as a release failure. -/
structure DoResult where
  result : Option Err
  renewalSpawned : Bool
  releaseAttempted : Bool
  releaseFailureLogged : Option Err
deriving DecidableEq, Repr

/-- `DBLock.DoExclusively` with the database interactions abstracted by
their outcomes: `acquireRes` is the acquire phase's result (DoInTx around
Acquire with the caller's context), `fnRes` the user function's return
value, `releaseRes` the release phase's result (DoInTx around Release under
the fresh timeout context). On acquire failure the method returns that
error at once: the release defer is not yet registered and the renewal
goroutine is not spawned. Otherwise the method returns `fn`'s result, and
the deferred release logs its error (any non-nil error) as a release
failure without affecting the returned value. -/
def DoExclusively (acquireRes fnRes releaseRes : Option Err) : DoResult :=
  match acquireRes with
  | some e =>
    { result := some e
      renewalSpawned := false
      releaseAttempted := false
      releaseFailureLogged := none }
  | none =>
    { result := fnRes
      renewalSpawned := true
      releaseAttempted := true
      releaseFailureLogged := releaseRes }

/-- An event observed by the renewal goroutine's select loop: the done
channel being closed, or a ticker tick whose Extend-through-DoInTx attempt
produced the given error (nil = successful extension). -/
inductive RenewalEvent where
  | doneSignal
  | tick (extendErr : Option Err)
deriving DecidableEq, Repr

/-- State of the renewal goroutine: errors reported to the logger so far,
whether it has cancelled the derived work context (`childCtxCancel`), and
whether it has returned. -/
structure RenewalState where
  loggedErrors : List Err := []
  workCtxCancelled : Bool := false
  exited : Bool := false
deriving DecidableEq, Repr

/-- Body of the renewal goroutine in `DoExclusively`, as a function of the
events its select loop observes: the done signal makes it return; a tick
with a nil extend error continues silently; a tick with a non-nil extend
error is logged, and when that error is `ErrLockAlreadyReleased` the
goroutine cancels the work context and returns, otherwise it continues
with the next event. -/
def renewalRun (s : RenewalState) : List RenewalEvent → RenewalState
  | [] => s
  | .doneSignal :: _ => { s with exited := true }
  | .tick none :: rest => renewalRun s rest
  | .tick (some e) :: rest =>
    let s' := { s with loggedErrors := s.loggedErrors ++ [e] }
    if e = .lockAlreadyReleased then { s' with workCtxCancelled := true, exited := true }
    else renewalRun s' rest

/-- The Extend outcome of one renewal tick: the goroutine runs Extend
through DoInTx passing the original caller-supplied context `callerCtx` to
both; the derived work context (represented by `workCtxCancelled`) is not
consulted. `res` abstracts the executor result for the extend statement and
`commitErrCode` the commit outcome. -/
def renewalTickExtendErr (callerCtx : CtxStatus) (workCtxCancelled : Bool)
    (res : ExecResult) (commitErrCode : Option Nat) : Option Err :=
  doInTx callerCtx (execQueryAndCheckAffectedRow callerCtx res .lockAlreadyReleased)
    commitErrCode

/-- C1 (counterexample): with the supplied context already cancelled when
the statement returns, an acquire whose statement reported 1 affected row
and no driver error does not return success — it returns the context's
error — refuting the claim's unconditional affected-rows-to-result
mapping. -/
theorem acquire_one_affected_row_canceled_ctx_not_success :
    (AcquireWithStaticToken ⟨"k", 0, ""⟩ .canceled (.affected 1) "t" 60).1 =
      some Err.ctxCanceled ∧
    (AcquireWithStaticToken ⟨"k", 0, ""⟩ .canceled (.affected 1) "t" 60).1 ≠ none :=
  ⟨rfl, by decide⟩

/-- C1 (amended): provided the supplied context is still live when the
statement returns, zero affected rows make Acquire return
LockAlreadyAcquired and Release and Extend return LockAlreadyReleased,
and one affected row with no driver error makes each operation return
success. -/
theorem affected_rows_semantics_under_live_ctx (l : DBLock) (tok : String) (ttl : Nat) :
    (AcquireWithStaticToken l .ok (.affected 0) tok ttl).1 = some .lockAlreadyAcquired ∧
    (AcquireWithStaticToken l .ok (.affected 1) tok ttl).1 = none ∧
    (Release l .ok (.affected 0)).1 = some .lockAlreadyReleased ∧
    (Release l .ok (.affected 1)).1 = none ∧
    (Extend l .ok (.affected 0)).1 = some .lockAlreadyReleased ∧
    (Extend l .ok (.affected 1)).1 = none :=
  ⟨rfl, rfl, rfl, rfl, rfl, rfl⟩

/-- C2: DoExclusively returns exactly one of the acquire error — in which
case it aborts before the renewal goroutine is spawned and before any
release is attempted — or the user function's own result; the release
phase's error is only logged and never becomes the return value. -/
theorem doExclusively_returns_acquire_error_or_fn_result
    (acquireRes fnRes releaseRes : Option Err) :
    (∀ e, acquireRes = some e →
      DoExclusively acquireRes fnRes releaseRes =
        { result := some e, renewalSpawned := false, releaseAttempted := false,
          releaseFailureLogged := none }) ∧
    (acquireRes = none →
      (DoExclusively acquireRes fnRes releaseRes).result = fnRes) := by
  constructor
  · intro e he; subst he; rfl
  · intro h; subst h; rfl

/-- Witness for C2 at concrete acquire, function and release outcomes. -/
theorem doExclusively_returns_acquire_error_or_fn_result_witness :
    DoExclusively (some Err.lockAlreadyAcquired) none (some (Err.driver 3)) =
      { result := some Err.lockAlreadyAcquired, renewalSpawned := false,
        releaseAttempted := false, releaseFailureLogged := none } ∧
    (DoExclusively none (some (Err.driver 7)) (some (Err.driver 3))).result =
      some (Err.driver 7) :=
  ⟨(doExclusively_returns_acquire_error_or_fn_result (some .lockAlreadyAcquired) none
      (some (.driver 3))).1 Err.lockAlreadyAcquired rfl,
   (doExclusively_returns_acquire_error_or_fn_result none (some (.driver 7))
      (some (.driver 3))).2 rfl⟩

/-- C3: a lock row currently held by token t (expiry set and strictly in
the future) is re-acquired by the same token t — the acquire predicate
matches through its token-equality clause, the update affects exactly one
row, the store operation succeeds, and the row is again held by t until
the refreshed expiry, so the re-acquisition can be repeated before expiry —
while an acquire with a different token on the same held row affects no
row and fails with LockAlreadyAcquired, leaving the lease object
unchanged. -/
theorem reentrant_acquire_same_token (now ttl e : Nat) (k t t' : String) (l : DBLock)
    (hl : l.Key = k) (hnow : now < e) (hne : t' ≠ t) :
    heldBy now t ⟨k, some t, some e⟩ = true ∧
    runAcquireQuery now ttl t k [⟨k, some t, some e⟩] =
      ([⟨k, some t, some (now + ttl)⟩], 1) ∧
    acquireOnTable l .ok now [⟨k, some t, some e⟩] t ttl =
      (none, { l with TTL := ttl, token := t }, [⟨k, some t, some (now + ttl)⟩]) ∧
    (∀ now2, now2 < now + ttl → heldBy now2 t ⟨k, some t, some (now + ttl)⟩ = true) ∧
    runAcquireQuery now ttl t' k [⟨k, some t, some e⟩] = ([⟨k, some t, some e⟩], 0) ∧
    (acquireOnTable l .ok now [⟨k, some t, some e⟩] t' ttl).1 =
      some .lockAlreadyAcquired ∧
    (acquireOnTable l .ok now [⟨k, some t, some e⟩] t' ttl).2.1 = l := by
  subst hl
  have hnot : ¬ e < now := Nat.lt_asymm hnow
  have hw : acquireWhere now l.Key t ⟨l.Key, some t, some e⟩ = true := by
    simp [acquireWhere]
  have hne' : ¬ t = t' := fun hh => hne hh.symm
  have hw' : acquireWhere now l.Key t' ⟨l.Key, some t, some e⟩ = false := by
    simp [acquireWhere, hnot, hne']
  have hq : runAcquireQuery now ttl t l.Key [⟨l.Key, some t, some e⟩] =
      ([⟨l.Key, some t, some (now + ttl)⟩], 1) := by
    simp [runAcquireQuery, runUpdate, hw, acquireSet]
  have hq' : runAcquireQuery now ttl t' l.Key [⟨l.Key, some t, some e⟩] =
      ([⟨l.Key, some t, some e⟩], 0) := by
    simp [runAcquireQuery, runUpdate, hw']
  refine ⟨by simp [heldBy, hnow], hq, ?_, ?_, hq', ?_, ?_⟩
  · simp [acquireOnTable, hq, AcquireWithStaticToken, execQueryAndCheckAffectedRow,
      CtxStatus.err]
  · intro now2 h2; simp [heldBy, h2]
  · simp [acquireOnTable, hq', AcquireWithStaticToken, execQueryAndCheckAffectedRow,
      CtxStatus.err]
  · simp [acquireOnTable, hq', AcquireWithStaticToken, execQueryAndCheckAffectedRow,
      CtxStatus.err]

/-- Witness for C3: a row held by token a at time 10 until 20 is
re-acquired by a and refused to b. -/
theorem reentrant_acquire_same_token_witness :
    acquireOnTable ⟨"job", 0, ""⟩ .ok 10 [⟨"job", some "a", some 20⟩] "a" 5 =
      (none, ⟨"job", 5, "a"⟩, [⟨"job", some "a", some (10 + 5)⟩]) ∧
    (acquireOnTable ⟨"job", 0, ""⟩ .ok 10 [⟨"job", some "a", some 20⟩] "b" 5).1 =
      some Err.lockAlreadyAcquired :=
  ⟨(reentrant_acquire_same_token 10 5 20 "job" "a" "b" ⟨"job", 0, ""⟩ rfl (by decide)
      (by decide)).2.2.1,
   (reentrant_acquire_same_token 10 5 20 "job" "a" "b" ⟨"job", 0, ""⟩ rfl (by decide)
      (by decide)).2.2.2.2.2.1⟩

/-- C4: on a tick whose Extend attempt returned ErrLockAlreadyReleased the
renewal goroutine logs the error, cancels the derived work context and
terminates without processing later events; on a tick with any other
non-nil Extend error it reports the error to the logger and continues with
the remaining events, neither cancelling the work context nor terminating
at that step; a nil Extend result continues silently. -/
theorem renewal_tick_semantics (s : RenewalState) (rest : List RenewalEvent) :
    renewalRun s (.tick (some .lockAlreadyReleased) :: rest) =
      { loggedErrors := s.loggedErrors ++ [.lockAlreadyReleased],
        workCtxCancelled := true, exited := true } ∧
    (∀ e, e ≠ Err.lockAlreadyReleased →
      renewalRun s (.tick (some e) :: rest) =
        renewalRun { s with loggedErrors := s.loggedErrors ++ [e] } rest) ∧
    renewalRun s (.tick none :: rest) = renewalRun s rest := by
  refine ⟨rfl, ?_, rfl⟩
  intro e he
  simp [renewalRun, he]

/-- Witness for C4: a driver error on a tick is logged and the goroutine
continues. -/
theorem renewal_tick_semantics_witness :
    renewalRun {} [.tick (some (.driver 7))] =
      renewalRun { loggedErrors := [Err.driver 7] } [] :=
  (renewal_tick_semantics {} []).2.1 (Err.driver 7) (by decide)

/-- C5 (counterexample): a LockAlreadyReleased result from the release
phase is reported to the logger as a release failure — the release defer
logs every non-nil error without special-casing ErrLockAlreadyReleased —
refuting the claim that it is treated as a successful release for logging
purposes. -/
theorem release_lockAlreadyReleased_logged_as_failure :
    (DoExclusively none none (some .lockAlreadyReleased)).releaseFailureLogged =
      some Err.lockAlreadyReleased ∧
    (DoExclusively none none (some .lockAlreadyReleased)).releaseFailureLogged ≠
      none :=
  ⟨rfl, by decide⟩

/-- C5 (amended): in DoExclusively's release phase every non-nil Release
result, LockAlreadyReleased included, is logged as a release failure, and
no release error changes the function's result. -/
theorem release_errors_logged_never_returned (fnRes releaseRes : Option Err) :
    (DoExclusively none fnRes releaseRes).releaseFailureLogged = releaseRes ∧
    (DoExclusively none fnRes releaseRes).result = fnRes :=
  ⟨rfl, rfl⟩

/-- C6: the renewal goroutine's tick outcome is computed from the original
caller-supplied context — the derived cancellable work context plays no
part in it — and when the caller's context is cancelled every tick fails
with a wrapped context error distinct from ErrLockAlreadyReleased, so the
goroutine logs it and keeps running: it processes any number of such ticks
without cancelling the work context and without exiting, terminating
exactly at the explicit done signal. -/
theorem renewal_uses_caller_ctx_survives_cancellation
    (callerCtx : CtxStatus) (w w' : Bool) (res : ExecResult) (c : Option Nat)
    (n : Nat) (s : RenewalState) :
    renewalTickExtendErr callerCtx w res c = renewalTickExtendErr callerCtx w' res c ∧
    renewalTickExtendErr .canceled w res c = some (.beginTx .ctxCanceled) ∧
    renewalRun s
        (List.replicate n (.tick (renewalTickExtendErr .canceled w res c)) ++
          [.doneSignal]) =
      { loggedErrors := s.loggedErrors ++ List.replicate n (.beginTx .ctxCanceled),
        workCtxCancelled := s.workCtxCancelled, exited := true } := by
  refine ⟨rfl, rfl, ?_⟩
  induction n generalizing s with
  | zero => simp [renewalRun]
  | succ m ih =>
    have hstep : renewalRun s
        ((RenewalEvent.tick (renewalTickExtendErr .canceled w res c)) ::
          (List.replicate m (.tick (renewalTickExtendErr .canceled w res c)) ++
            [.doneSignal])) =
        renewalRun { s with loggedErrors := s.loggedErrors ++ [.beginTx .ctxCanceled] }
          (List.replicate m (.tick (renewalTickExtendErr .canceled w res c)) ++
            [.doneSignal]) := by
      simp [renewalRun, renewalTickExtendErr, doInTx, CtxStatus.err]
    rw [List.replicate_succ, List.cons_append, hstep, ih]
    simp [List.replicate_succ, List.append_assoc]

/-- C7: the lease object is mutated only by a successful acquire — when
AcquireWithStaticToken returns an error its token and TTL fields (and key)
are left exactly as they were, on success precisely token and TTL are
assigned — and Release and Extend never assign any field. -/
theorem lease_mutated_only_on_successful_acquire
    (l : DBLock) (ctx : CtxStatus) (res : ExecResult) (tok : String) (ttl : Nat) :
    (∀ e, (AcquireWithStaticToken l ctx res tok ttl).1 = some e →
      (AcquireWithStaticToken l ctx res tok ttl).2 = l) ∧
    ((AcquireWithStaticToken l ctx res tok ttl).1 = none →
      (AcquireWithStaticToken l ctx res tok ttl).2 =
        { l with TTL := ttl, token := tok }) ∧
    (Release l ctx res).2 = l ∧
    (Extend l ctx res).2 = l := by
  unfold AcquireWithStaticToken Release Extend
  cases h : execQueryAndCheckAffectedRow ctx res .lockAlreadyAcquired <;> simp

/-- Witness for C7: a driver error leaves the lease untouched; a one-row
success sets token and TTL. -/
theorem lease_mutated_only_on_successful_acquire_witness :
    (AcquireWithStaticToken ⟨"k", 0, ""⟩ .ok (.execErr 9) "t" 60).2 = ⟨"k", 0, ""⟩ ∧
    (AcquireWithStaticToken ⟨"k", 0, ""⟩ .ok (.affected 1) "t" 60).2 = ⟨"k", 60, "t"⟩ :=
  ⟨(lease_mutated_only_on_successful_acquire ⟨"k", 0, ""⟩ .ok (.execErr 9) "t" 60).1
      (Err.driver 9) rfl,
   (lease_mutated_only_on_successful_acquire ⟨"k", 0, ""⟩ .ok (.affected 1) "t" 60).2.1
      rfl⟩

/-- C8: NewLock rejects an empty key and a key longer than 40 bytes before
invoking the executor, and for a key of 1 to 40 bytes it executes the init
statement and fails exactly when that statement reports a driver error. -/
theorem newLock_key_validation
    (ctx : CtxStatus) (key : String) (execOutcome : Option Nat) :
    (key = "" → NewLock ctx key execOutcome = (.error .invalidKeyEmpty, false)) ∧
    (key.utf8ByteSize > 40 →
      NewLock ctx key execOutcome = (.error .invalidKeyTooLong, false)) ∧
    (key ≠ "" → key.utf8ByteSize ≤ 40 →
      (NewLock ctx key execOutcome).2 = true ∧
      ((NewLock ctx key execOutcome).1 = .ok { Key := key } ↔ execOutcome = none) ∧
      (∀ code, execOutcome = some code →
        (NewLock ctx key execOutcome).1 =
          .error (.initLockFailed key (.driver code)))) := by
  refine ⟨?_, ?_, ?_⟩
  · intro h; subst h; rfl
  · intro h40
    have hne : key ≠ "" := by
      intro h; subst h; exact absurd h40 (by decide)
    simp [NewLock, hne, h40]
  · intro hne h40
    have h40' : ¬ key.utf8ByteSize > 40 := by omega
    cases execOutcome with
    | none => simp [NewLock, hne, h40']
    | some code => simp [NewLock, hne, h40']

/-- Witness for C8 at the empty key, a 6-byte key with successful init, and
a 6-byte key with a failing init. -/
theorem newLock_key_validation_witness :
    NewLock .ok "" none = (.error .invalidKeyEmpty, false) ∧
    (NewLock .ok "job-42" none).2 = true ∧
    (NewLock .ok "job-42" (some 5)).1 = .error (.initLockFailed "job-42" (.driver 5)) :=
  ⟨(newLock_key_validation .ok "" none).1 rfl,
   ((newLock_key_validation .ok "job-42" none).2.2 (by decide) (by decide)).1,
   ((newLock_key_validation .ok "job-42" (some 5)).2.2 (by decide) (by decide)).2.2
      5 rfl⟩

/-- C9: building the query set succeeds for each supported dialect
(postgres, pgx, mysql) and reports an unsupported-dialect error — carrying
no query set — for every other dialect; NewDBManager propagates this
exactly, creating no manager on the unsupported side. -/
theorem dialect_support (tableName : String) (opts : DBManagerOptions) (s : String) :
    (newDBQueries .postgres tableName).isOk = true ∧
    (newDBQueries .pgx tableName).isOk = true ∧
    (newDBQueries .mysql tableName).isOk = true ∧
    newDBQueries .sqlite tableName = .error (.unsupportedDialect .sqlite) ∧
    newDBQueries .mssql tableName = .error (.unsupportedDialect .mssql) ∧
    newDBQueries (.other s) tableName = .error (.unsupportedDialect (.other s)) ∧
    (NewDBManager .postgres opts).isOk = true ∧
    (NewDBManager .pgx opts).isOk = true ∧
    (NewDBManager .mysql opts).isOk = true ∧
    NewDBManager .sqlite opts = .error (.unsupportedDialect .sqlite) ∧
    NewDBManager .mssql opts = .error (.unsupportedDialect .mssql) ∧
    NewDBManager (.other s) opts = .error (.unsupportedDialect (.other s)) :=
  ⟨rfl, rfl, rfl, rfl, rfl, rfl, rfl, rfl, rfl, rfl, rfl, rfl⟩

/-- C10 (counterexample): NewLock's init performs no context check — with
the supplied context already cancelled and the init statement executed
without driver error, NewLock returns the initialized lock and a nil
error rather than the context's error, refuting the claim for NewLock's
init. -/
theorem newLock_canceled_ctx_still_succeeds :
    NewLock .canceled "k" none = (.ok { Key := "k" }, true) := rfl

/-- C10 (amended): for the three transitions that run through
execQueryAndCheckAffectedRow — Acquire, Release and Extend — a context
that is already cancelled or expired when the statement returns makes the
operation return that context's error even though the statement executed
without a driver error and affected a row, and such an Acquire leaves the
lease object's fields untouched; NewLock's init performs no such check. -/
theorem store_ops_return_ctx_error (l : DBLock) (ctx : CtxStatus) (tok : String)
    (ttl n : Nat) (h : ctx ≠ .ok) :
    AcquireWithStaticToken l ctx (.affected n) tok ttl = (ctx.err, l) ∧
    Release l ctx (.affected n) = (ctx.err, l) ∧
    Extend l ctx (.affected n) = (ctx.err, l) := by
  cases ctx with
  | ok => exact absurd rfl h
  | canceled => exact ⟨rfl, rfl, rfl⟩
  | deadlineExceeded => exact ⟨rfl, rfl, rfl⟩

/-- Witness for C10's amended statement: a cancelled context turns a
one-row acquire into the context's error and leaves the lease unchanged. -/
theorem store_ops_return_ctx_error_witness :
    AcquireWithStaticToken ⟨"k", 0, ""⟩ .canceled (.affected 1) "t" 60 =
      (some Err.ctxCanceled, ⟨"k", 0, ""⟩) :=
  (store_ops_return_ctx_error ⟨"k", 0, ""⟩ .canceled "t" 60 1 (by decide)).1

end Distrlock
